import Mathlib

/-!
Verification of the TikTok battle listener (`scripts/tiktok_listener.py`).

The definitions below are a shallow embedding of the listener's pure logic:
Python strings become `String`, timestamps become `Int` seconds, and every
outbound HTTP interaction is represented by an explicit outcome value of
type `Except String _` (a success payload, or the caught exception's
message).  Python truthiness is modelled explicitly (`truthy`, `intTruthy`).
Python string primitives (`lower`, `strip`, `lstrip`, slicing, `split`,
`in`, `startswith`) are re-implemented character-wise over `List Char` so
that every definition evaluates by kernel reduction; `lower`/`strip` use
the ASCII case table and whitespace set, which covers the constant
signatures and commands the listener matches on.
-/

namespace TikTokListener

/-- Prefix test on character lists (Python `hay.startswith(needle)` at one
position). -/
def charsStartWith : List Char → List Char → Bool
  | [], _ => true
  | _ :: _, [] => false
  | a :: as, b :: bs => a == b && charsStartWith as bs

/-- Scan of the haystack for an occurrence of the needle. -/
def charsContain (needle : List Char) : List Char → Bool
  | [] => charsStartWith needle []
  | b :: rest => charsStartWith needle (b :: rest) || charsContain needle rest

/-- Python `needle in hay` on strings. -/
def pyIn (needle hay : String) : Bool :=
  charsContain needle.toList hay.toList

/-- Python `s.startswith(pre)`. -/
def pyStartsWith (s pre : String) : Bool :=
  charsStartWith pre.toList s.toList

/-- Python `s.lower()` (ASCII case table, as for the constant patterns the
listener compares against). -/
def pyLower (s : String) : String :=
  ⟨s.toList.map Char.toLower⟩

/-- Whitespace characters stripped by Python's `str.strip()`. -/
def isSpaceChar (c : Char) : Bool :=
  c == ' ' || c == '\t' || c == '\n' || c == '\r' || c == '\x0b' || c == '\x0c'

/-- Drop of the longest prefix satisfying `p`. -/
def dropWhileList (p : Char → Bool) : List Char → List Char
  | [] => []
  | c :: cs => if p c then dropWhileList p cs else c :: cs

/-- Python `s.strip()`: whitespace removed from both ends. -/
def pyStrip (s : String) : String :=
  ⟨(dropWhileList isSpaceChar (dropWhileList isSpaceChar s.toList).reverse).reverse⟩

/-- Python `s.lstrip("@")`: every leading at-sign removed. -/
def lstripAt (s : String) : String :=
  ⟨dropWhileList (fun c => c == '@') s.toList⟩

/-- Python `s[:n]` on a string. -/
def pyTake (s : String) (n : Nat) : String :=
  ⟨s.toList.take n⟩

/-- Python `s[n:]` on a string. -/
def pyDrop (s : String) (n : Nat) : String :=
  ⟨s.toList.drop n⟩

/-- Accumulator-based splitting of a character list at pipe characters. -/
def splitPipeAux : List Char → List Char → List (List Char)
  | acc, [] => [acc.reverse]
  | acc, c :: cs =>
      if c == '|' then acc.reverse :: splitPipeAux [] cs
      else splitPipeAux (c :: acc) cs

/-- Python `s.split("|")`. -/
def splitPipe (s : String) : List String :=
  (splitPipeAux [] s.toList).map String.mk

/-- Python truthiness of an optional string field: present and non-empty. -/
def truthy : Option String → Bool
  | none => false
  | some s => s ≠ ""

/-- Python truthiness of an optional integer field: present and non-zero. -/
def intTruthy : Option Int → Bool
  | none => false
  | some n => n ≠ 0

/-- Value of a Python `a or b or ... or ""` chain over string fields: the
first truthy entry, else the empty string. -/
def firstStr (xs : List (Option String)) : String :=
  match xs.findSome? (fun o => if truthy o then o else none) with
  | some s => s
  | none => ""

/-- Python `a or b` on two optional string fields. -/
def pyOrS (a b : Option String) : Option String :=
  if truthy a then a else b

/-! ## Event deduplication (`_make_event_key`, `_is_duplicate`) -/

/-- The dedupe cache `self._seen`: derived key ↦ first-seen timestamp
(`datetime.now().timestamp()`, modelled in whole seconds). -/
abbrev Seen := List (String × Int)

/-- The `user` sub-dict of an inbound payload, with the identity fields
`_make_event_key` probes. -/
structure UserObj where
  unique_id : Option String
  display_id : Option String
deriving DecidableEq

/-- The fields of an inbound event payload that `_make_event_key` probes;
`none` models an absent key, `some s` a present value rendered as a string.
`user = some u` models `"user" in payload and isinstance(payload["user"], dict)`;
`user_id = some v` models the key `user_id` being present with `str` value `v`. -/
structure EventPayload where
  event_id : Option String
  message_id : Option String
  id : Option String
  msg_id : Option String
  cid : Option String
  comment : Option String
  content : Option String
  user : Option UserObj
  timestamp : Option String
  create_time : Option String
  user_id : Option String
deriving DecidableEq

/-- Embedding of `TikTokBattleListener._make_event_key`: derive an idempotency key in
priority order — explicit id fields, then sender+snippet for comments, then
timestamp+sender, else no key. -/
def makeEventKey (p : EventPayload) (etype : String) : Option String :=
  match (List.findSome? (fun o => if truthy o then o else none)
      [p.event_id, p.message_id, p.id, p.msg_id, p.cid]) with
  | some v => some (etype ++ ":" ++ v)
  | none =>
    let commentKey : Option String :=
      if etype = "comment" then
        let commentText := firstStr [p.comment, p.content]
        let sender :=
          match p.user with
          | some u => firstStr [u.unique_id, u.display_id]
          | none => ""
        if commentText ≠ "" then
          let snippet := pyTake (pyStrip commentText) 64
          if snippet ≠ "" then some (etype ++ ":" ++ sender ++ ":" ++ snippet)
          else none
        else none
      else none
    match commentKey with
    | some key => some key
    | none =>
      let ts := pyOrS p.timestamp p.create_time
      let sender :=
        match p.user with
        | some u => firstStr [u.unique_id, u.display_id]
        | none =>
          match p.user_id with
          | some uid => uid
          | none => ""
      if truthy ts then
        some (etype ++ ":" ++ (match ts with | some s => s | none => "") ++ ":" ++ sender)
      else none

/-- The lazy purge inside `_is_duplicate`: drop every cached entry whose
first-seen timestamp is strictly older than `now - 30`. -/
def purgeSeen (seen : Seen) (now : Int) : Seen :=
  seen.filter (fun kv => decide (now - 30 ≤ kv.2))

/-- Membership test `key in self._seen`. -/
def hasKey (seen : Seen) (k : String) : Bool :=
  seen.any (fun kv => kv.1 == k)

/-- Embedding of `TikTokBattleListener._is_duplicate`: returns whether the event is a
duplicate together with the updated cache; an underivable key fails open. -/
def isDuplicate (key : Option String) (now : Int) (seen : Seen) : Bool × Seen :=
  match key with
  | none => (false, seen)
  | some k =>
    if hasKey (purgeSeen seen now) k then (true, purgeSeen seen now)
    else (false, (k, now) :: purgeSeen seen now)

/-- The `if self._is_duplicate(event, etype): return` guard shared by every
wired handler: a duplicate event performs none of the handler's actions. -/
def handleEvent {α : Type} (key : Option String) (now : Int) (seen : Seen)
    (acts : List α) : List α × Seen :=
  if (isDuplicate key now seen).1 then ([], (isDuplicate key now seen).2)
  else (acts, (isDuplicate key now seen).2)

/-- A concrete inbound event carrying an explicit `event_id`. -/
def sampleEventPayload : EventPayload :=
  { event_id := some "evt-1", message_id := none, id := none, msg_id := none,
    cid := none, comment := none, content := none, user := none,
    timestamp := none, create_time := none, user_id := none }

/-! ## Score and slot mapper -/

/-- The two slot-name bindings held in `self._slots`. -/
structure Slots where
  slot_one : String
  slot_two : String
deriving DecidableEq

/-- The per-slot cumulative baseline `self._last_scores`. -/
structure Scores where
  slot_one : Int
  slot_two : Int
deriving DecidableEq

/-- An outbound Battle Control API call emitted by the listener. -/
inductive ApiCall where
  | battleStart
  | battleEnd
  | slotsImport (slot_one slot_two : Option String)
  | addScore (slot : String) (amount : Int)
  | getState
deriving DecidableEq

/-- The recipient/slot-name normalization of `_slot_for_recipient`:
`(rec_val or "").strip().lower().lstrip("@")`. -/
def normRecipient (s : String) : String :=
  lstripAt (pyLower (pyStrip s))

/-- Embedding of `_normalize_user_id`: `s.strip().lstrip("@").lower()`. -/
def normalizeUserId (s : String) : String :=
  pyLower (lstripAt (pyStrip s))

/-- Embedding of `TikTokBattleListener._slot_for_recipient`, with the two `for key, name
in self._slots.items()` loops unrolled over the fixed insertion order
`slot_one`, `slot_two` (the `if not name / if not n: continue` guards fold
into the `≠ ""` tests, since an empty name normalizes to the empty
string). -/
def slotForRecipient (slots : Slots) (recipient : String) : String :=
  let r := normRecipient recipient
  if r = "" then "slot_one"
  else
    let n1 := normRecipient slots.slot_one
    let n2 := normRecipient slots.slot_two
    if n1 ≠ "" ∧ r = n1 then "slot_one"
    else if n2 ≠ "" ∧ r = n2 then "slot_two"
    else if n1 ≠ "" ∧ (pyIn r n1 || pyIn n1 r) = true then "slot_one"
    else if n2 ≠ "" ∧ (pyIn r n2 || pyIn n2 r) = true then "slot_two"
    else "slot_one"

/-- Embedding of `TikTokBattleListener._update_scores`: clamp each side's delta at zero,
store the new cumulatives, and post only the non-zero deltas. -/
def updateScores (last : Scores) (slot_one_score slot_two_score : Int) :
    Scores × List ApiCall :=
  let delta_one := max 0 (slot_one_score - last.slot_one)
  let delta_two := max 0 (slot_two_score - last.slot_two)
  (⟨slot_one_score, slot_two_score⟩,
    (if delta_one ≠ 0 then [ApiCall.addScore "slot_one" delta_one] else [])
      ++ (if delta_two ≠ 0 then [ApiCall.addScore "slot_two" delta_two] else []))

/-! ## State sync client (`_safe_post`, `_sync_slots`, `import_slots`) -/

/-- A slot object inside the `/state` response, with the aliased name keys
`_sync_slots` probes. -/
structure SlotJson where
  name : Option String
  slot_one : Option String
  slotOne : Option String
  slot_two : Option String
  slotTwo : Option String
deriving DecidableEq

/-- The parsed JSON body of `GET /state`, restricted to the keys
`_sync_slots` probes; `none` models an absent key. -/
structure StateJson where
  slot_one : Option SlotJson
  slotOne : Option SlotJson
  slot_two : Option SlotJson
  slotTwo : Option SlotJson
  slot_one_name : Option String
  slotOneName : Option String
  slot_two_name : Option String
  slotTwoName : Option String
deriving DecidableEq

/-- The all-keys-absent slot object, Python's falsy `{}`. -/
def emptySlotJson : SlotJson := ⟨none, none, none, none, none⟩

/-- Python truthiness of `data.get(k)` for a dict-valued key. -/
def dictTruthy (o : Option SlotJson) : Bool :=
  match o with
  | none => false
  | some s => s ≠ emptySlotJson

/-- Python `data.get(a) or data.get(b) or {}` over dict-valued keys. -/
def pickSlotJson (a b : Option SlotJson) : SlotJson :=
  if dictTruthy a then a.getD emptySlotJson
  else if dictTruthy b then b.getD emptySlotJson
  else emptySlotJson

/-- Embedding of `TikTokBattleListener._safe_post`: any transport failure is caught and
reported as `false`; no exception propagates to the caller. -/
def safePost (result : Except String Unit) : Bool :=
  match result with
  | .ok _ => true
  | .error _ => false

/-- Embedding of `TikTokBattleListener._sync_slots`: pull `/state`, probe the aliased
name keys, and overwrite a binding only with a truthy pulled name; any
transport or parse failure (`Except.error`) leaves the bindings intact. -/
def syncSlots (slots : Slots) (resp : Except String StateJson) : Slots :=
  match resp with
  | .error _ => slots
  | .ok data =>
    let slotOneObj := pickSlotJson data.slot_one data.slotOne
    let slotTwoObj := pickSlotJson data.slot_two data.slotTwo
    let n1 := firstStr [slotOneObj.name, slotOneObj.slot_one, slotOneObj.slotOne,
      data.slot_one_name, data.slotOneName]
    let n2 := firstStr [slotTwoObj.name, slotTwoObj.slot_two, slotTwoObj.slotTwo,
      data.slot_two_name, data.slotTwoName]
    ⟨if n1 ≠ "" then n1 else slots.slot_one,
     if n2 ≠ "" then n2 else slots.slot_two⟩

/-- Embedding of `TikTokBattleListener.import_slots`: post the import, update the local
bindings only when the post succeeded (`slot_one or previous` per side),
then re-sync from the backend. -/
def importSlots (slots : Slots) (slot_one slot_two : Option String)
    (post : Except String Unit) (sync : Except String StateJson) :
    Slots × List ApiCall :=
  let slots1 :=
    if safePost post then
      ⟨if truthy slot_one then slot_one.getD "" else slots.slot_one,
       if truthy slot_two then slot_two.getD "" else slots.slot_two⟩
    else slots
  (syncSlots slots1 sync, [ApiCall.slotsImport slot_one slot_two, ApiCall.getState])

/-! ## Battle lifecycle and gift scoring -/

/-- The 30-second cooldown `self._cooldown`. -/
def cooldown : Int := 30

/-- Default slot names (the `SLOT_ONE_NAME`/`SLOT_TWO_NAME` fallbacks). -/
def defaultSlotOne : String := "Performer One"

/-- Default name bound to slot_two. -/
def defaultSlotTwo : String := "Performer Two"

/-- The listener-wide mutable state touched by the handlers (the dedupe
cache is threaded separately, see `Seen`).  `lastStart`/`lastEnd` embed
`self._last_start`/`self._last_end`: `none` is the constructor's *naive*
`datetime.min`, which cannot be subtracted from the *aware*
`datetime.now(timezone.utc)` the handlers use (Python raises `TypeError`);
`some t` is an aware timestamp written by `trigger_start`/`trigger_end`. -/
structure ListenerState where
  slots : Slots
  lastScores : Scores
  scoreById : List (String × Int)
  lastStart : Option Int
  lastEnd : Option Int
deriving DecidableEq

/-- The `TypeError` Python raises when `_maybe_trigger` or `on_armies`
subtracts the naive `datetime.min` sentinel from an aware timestamp; it
propagates out of the handler, aborting it before any trigger or post. -/
def naiveDatetimeError : String :=
  "TypeError: aware datetime minus naive datetime"

/-- Embedding of `looks_like_battle_start`: comment text contains `!battle` or
`start battle` (lowercased), or a truthy gift name contains `battle`. -/
def looksLikeBattleStart (comment giftName : Option String) : Bool :=
  if pyIn "!battle" (pyLower (comment.getD ""))
      || pyIn "start battle" (pyLower (comment.getD "")) then true
  else
    match giftName with
    | some g => if g ≠ "" && pyIn "battle" (pyLower g) then true else false
    | none => false

/-- Embedding of `looks_like_battle_end`: comment contains `!end` or `end battle` or
strips to exactly `gg`, or a truthy gift name contains `whistle`. -/
def looksLikeBattleEnd (comment giftName : Option String) : Bool :=
  if pyIn "!end" (pyLower (comment.getD ""))
      || pyIn "end battle" (pyLower (comment.getD ""))
      || pyStrip (pyLower (comment.getD "")) = "gg" then true
  else
    match giftName with
    | some g => if g ≠ "" && pyIn "whistle" (pyLower g) then true else false
    | none => false

/-- Lookup `self._score_by_id.get(rid, 0)`. -/
def lookupLedger (m : List (String × Int)) (k : String) : Int :=
  match m.find? (fun kv => kv.1 == k) with
  | some kv => kv.2
  | none => 0

/-- The dict update `self._score_by_id[rid] = self._score_by_id.get(rid, 0)
+ amount`, represented with newest-first shadowing in the association
list (`lookupLedger` reads the newest entry). -/
def bumpLedger (m : List (String × Int)) (k : String) (amount : Int) :
    List (String × Int) :=
  (k, lookupLedger m k + amount) :: m

/-- The monetary valuation in `on_gift`: `repeat_count * diamond_count`
when both probed fields are truthy, `diamond_count` when only it is,
otherwise the initial 0. -/
def giftValue (repeat_count diamond_count : Option Int) : Int :=
  if intTruthy repeat_count && intTruthy diamond_count then
    repeat_count.getD 0 * diamond_count.getD 0
  else if intTruthy diamond_count then diamond_count.getD 0
  else 0

/-- Embedding of `TikTokBattleListener.trigger_start`: stamp the start time
(an aware `datetime.now(timezone.utc)`), zero the per-slot baseline, empty
the per-recipient ledger, post `battle/start` and re-sync slots; `reason`
is only logged. -/
def triggerStart (st : ListenerState) (now : Int) (_reason : String)
    (sync : Except String StateJson) : ListenerState × List ApiCall :=
  ({ st with lastStart := some now, lastScores := ⟨0, 0⟩, scoreById := [],
             slots := syncSlots st.slots sync },
   [ApiCall.battleStart, ApiCall.getState])

/-- Embedding of `TikTokBattleListener.trigger_end`: stamp the end time
(aware), post `battle/end`, re-sync slots, then empty the ledger. -/
def triggerEnd (st : ListenerState) (now : Int) (_reason : String)
    (sync : Except String StateJson) : ListenerState × List ApiCall :=
  ({ st with lastEnd := some now, slots := syncSlots st.slots sync, scoreById := [] },
   [ApiCall.battleEnd, ApiCall.getState])

/-- The `elif looks_like_battle_end(...) and now - self._last_end > self._cooldown`
arm of `_maybe_trigger`.  Python's `and` short-circuits, so the datetime
subtraction — which raises `TypeError` while `_last_end` is still the naive
`datetime.min` — is evaluated only when the end heuristic matched. -/
def maybeTriggerEnd (st : ListenerState) (now : Int) (comment giftName : Option String)
    (sync : Except String StateJson) :
    Except String (ListenerState × List ApiCall × List String) :=
  if looksLikeBattleEnd comment giftName = true then
    match st.lastEnd with
    | none => Except.error naiveDatetimeError
    | some t1 =>
      if now - t1 > cooldown then
        Except.ok ((triggerEnd st now "heuristic" sync).1,
          (triggerEnd st now "heuristic" sync).2, ["end"])
      else Except.ok (st, [], [])
  else Except.ok (st, [], [])

/-- Embedding of `TikTokBattleListener._maybe_trigger`: heuristic start wins
over heuristic end, each gated by the 30-second cooldown since the same
transition last fired; the third component records which trigger fired.
Each `and` short-circuits: the aware-minus-`lastStart` subtraction is only
reached when the start heuristic matched, and raises (`Except.error`,
aborting the handler) while `lastStart` is the naive `datetime.min`. -/
def maybeTrigger (st : ListenerState) (now : Int) (comment giftName : Option String)
    (sync : Except String StateJson) :
    Except String (ListenerState × List ApiCall × List String) :=
  if looksLikeBattleStart comment giftName = true then
    match st.lastStart with
    | none => Except.error naiveDatetimeError
    | some t0 =>
      if now - t0 > cooldown then
        Except.ok ((triggerStart st now "heuristic" sync).1,
          (triggerStart st now "heuristic" sync).2, ["start"])
      else maybeTriggerEnd st now comment giftName sync
  else maybeTriggerEnd st now comment giftName sync

/-- Embedding of `TikTokBattleListener._score_gift`: a non-positive amount does nothing;
otherwise the amount is posted to the resolved slot, added to the local
baseline for that slot, and added to the ledger under the normalized
recipient id when that id is truthy. -/
def scoreGift (st : ListenerState) (amount : Int) (recipient : String) :
    ListenerState × List ApiCall :=
  if amount ≤ 0 then (st, [])
  else
    let slot := slotForRecipient st.slots recipient
    let newScores :=
      if slot = "slot_one" then
        { st.lastScores with slot_one := st.lastScores.slot_one + amount }
      else { st.lastScores with slot_two := st.lastScores.slot_two + amount }
    ({ st with lastScores := newScores,
               scoreById :=
                 if normalizeUserId recipient ≠ "" then
                   bumpLedger st.scoreById (normalizeUserId recipient) amount
                 else st.scoreById },
     [ApiCall.addScore slot amount])

/-- The scoring tail of the `on_gift` handler (post-dedupe): sync slots,
run the start/end heuristic on the gift name, then score a truthy gift
value to the resolved recipient slot; `repeat_count` and `diamond_count`
are the results of the payload's alias-probing chains. -/
def onGift (st : ListenerState) (now : Int) (repeat_count diamond_count : Option Int)
    (giftName : Option String) (recipient : String)
    (syncTop syncTrig : Except String StateJson) :
    Except String (ListenerState × List ApiCall × List String) :=
  let st0 := { st with slots := syncSlots st.slots syncTop }
  match maybeTrigger st0 now none giftName syncTrig with
  | Except.error e => Except.error e
  | Except.ok t =>
    if giftValue repeat_count diamond_count ≠ 0 then
      let g := scoreGift t.1 (giftValue repeat_count diamond_count) recipient
      Except.ok (g.1, ApiCall.getState :: t.2.1 ++ g.2, t.2.2)
    else Except.ok (t.1, ApiCall.getState :: t.2.1, t.2.2)

/-- The `on_comment` handler (post-dedupe): `!battle` / `!end` operator
commands bypass the cooldown, `!slots a|b` imports slot names with
defaults for blank sides, and any other text runs the heuristics. -/
def onComment (st : ListenerState) (now : Int) (text : String)
    (importPost : Except String Unit) (sync : Except String StateJson) :
    Except String (ListenerState × List ApiCall × List String) :=
  if pyStartsWith text "!battle" = true then
    Except.ok ((triggerStart st now "command" sync).1,
      (triggerStart st now "command" sync).2, ["start"])
  else if pyStartsWith text "!end" = true then
    Except.ok ((triggerEnd st now "command" sync).1,
      (triggerEnd st now "command" sync).2, ["end"])
  else if pyStartsWith text "!slots" = true then
    let parts := splitPipe (pyStrip (pyDrop text 6))
    let first :=
      match parts.head? with
      | some p => if pyStrip p ≠ "" then pyStrip p else defaultSlotOne
      | none => defaultSlotOne
    let second :=
      match parts[1]? with
      | some p => if pyStrip p ≠ "" then pyStrip p else defaultSlotTwo
      | none => defaultSlotTwo
    let imp := importSlots st.slots (some first) (some second) importPost sync
    Except.ok ({ st with slots := imp.1 }, imp.2, [])
  else maybeTrigger st now (some text) none sync

/-- The `on_armies` handler tail (post-dedupe, per-side cumulative scores
already extracted): an armies signal more than a cooldown after the last
start implicitly triggers a start, then tally deltas are posted.  Its
cooldown comparison `now - self._last_start > self._cooldown` is evaluated
unconditionally, so while `_last_start` is still the naive `datetime.min`
the subtraction raises `TypeError` and the handler aborts before posting
anything. -/
def onArmies (st : ListenerState) (now : Int) (slot_one_score slot_two_score : Int)
    (sync : Except String StateJson) :
    Except String (ListenerState × List ApiCall) :=
  match st.lastStart with
  | none => Except.error naiveDatetimeError
  | some t0 =>
    if now - t0 > cooldown then
      let t := triggerStart st now "armies_event" sync
      let u := updateScores t.1.lastScores slot_one_score slot_two_score
      Except.ok ({ t.1 with lastScores := u.1 }, t.2 ++ u.2)
    else
      let u := updateScores st.lastScores slot_one_score slot_two_score
      Except.ok ({ st with lastScores := u.1 }, u.2)

/-- The listener's state at construction: default bindings, zero baseline,
empty ledger, and the naive `datetime.min` sentinels (`none`) that
`__init__` stores into `_last_start`/`_last_end` — incomparable with the
aware timestamps the handlers subtract them from. -/
def initialListenerState : ListenerState :=
  { slots := ⟨defaultSlotOne, defaultSlotTwo⟩, lastScores := ⟨0, 0⟩,
    scoreById := [], lastStart := none, lastEnd := none }

/-- A listener state after a battle start was recorded at time 0: from
here the cooldown comparisons are well-defined (aware minus aware). -/
def startedListenerState : ListenerState :=
  { initialListenerState with lastStart := some 0 }

/-! ## Connection supervisor (`TikTokBattleListener.run`) -/

/-- Base reconnect delay `_base_backoff = 5` seconds. -/
def baseBackoff : Nat := 5

/-- The 60-second cap `_max_backoff` applied by `min(self._max_backoff, backoff * 2)`. -/
def maxBackoff : Nat := 60

/-- The fixed `_rate_limit_backoff = 300` second (five minute) cooldown. -/
def rateLimitBackoff : Nat := 300

/-- Outcome of one `await self.client.connect()` attempt inside `run()`:
a normal return, the distinguished `WebcastBlocked200Error`, or a generic
exception carrying its message. -/
inductive ConnectOutcome where
  | success
  | blocked200
  | genericErr (msg : String)
deriving DecidableEq

/-- The value `backoff` holds after the `try/except` of one iteration of
`run()` (before `asyncio.sleep(backoff)`), given its value `b` at entry. -/
def nextBackoff (b : Nat) : ConnectOutcome → Nat
  | .success => baseBackoff
  | .blocked200 => rateLimitBackoff
  | .genericErr msg =>
      if pyIn "device_blocked" (pyLower msg) then rateLimitBackoff
      else if pyIn "rate_limit" (pyLower msg) || pyIn "too many connections" (pyLower msg) then
        max maxBackoff rateLimitBackoff
      else b

/-- One iteration of the reconnect loop in `run()`: the first component is
the duration slept this iteration, the second is the `backoff` value carried
into the next iteration (`backoff = min(self._max_backoff, backoff * 2)`). -/
def stepRun (b : Nat) (o : ConnectOutcome) : Nat × Nat :=
  (nextBackoff b o, min maxBackoff (nextBackoff b o * 2))

/-- The list of sleep durations produced by a sequence of connect outcomes,
starting from backoff value `b`. -/
def runWaits (b : Nat) : List ConnectOutcome → List Nat
  | [] => []
  | o :: os => (stepRun b o).1 :: runWaits (stepRun b o).2 os

/-- A generic error message that the `except Exception` branch of `run()`
classifies as blocked/rate-limited after lowercasing. -/
def isBlockedMsg (msg : String) : Bool :=
  pyIn "device_blocked" (pyLower msg) || pyIn "rate_limit" (pyLower msg)
    || pyIn "too many connections" (pyLower msg)

/-- Connect outcomes that `run()` treats as a blocked/rate-limited failure. -/
def isBlockedOutcome : ConnectOutcome → Bool
  | .success => false
  | .blocked200 => true
  | .genericErr msg => isBlockedMsg msg

lemma nextBackoff_generic (b : Nat) (msg : String) (h : isBlockedMsg msg = false) :
    nextBackoff b (.genericErr msg) = b := by
  simp only [isBlockedMsg, Bool.or_eq_false_iff] at h
  simp [nextBackoff, h.1.1, h.1.2, h.2]

lemma nextBackoff_blocked (b : Nat) (o : ConnectOutcome) (h : isBlockedOutcome o = true) :
    nextBackoff b o = rateLimitBackoff := by
  cases o with
  | success => simp [isBlockedOutcome] at h
  | blocked200 => rfl
  | genericErr msg =>
      simp only [isBlockedOutcome, isBlockedMsg, Bool.or_eq_true] at h
      by_cases hdb : pyIn "device_blocked" (pyLower msg) = true
      · simp [nextBackoff, hdb]
      · simp only [Bool.not_eq_true] at hdb
        have hcond : (pyIn "rate_limit" (pyLower msg)
            || pyIn "too many connections" (pyLower msg)) = true := by
          rcases h with (h | h) | h
          · exact absurd h (by simp [hdb])
          · simp [h]
          · simp [h]
        simp [nextBackoff, hdb, hcond, maxBackoff, rateLimitBackoff]

lemma min_cap_double (x : Nat) : min 60 (min 60 x * 2) = min 60 (x * 2) := by
  omega

lemma runWaits_generic_pow (msgs : List String) (h : ∀ m ∈ msgs, isBlockedMsg m = false) :
    ∀ k : Nat, runWaits (min 60 (5 * 2 ^ k)) (msgs.map ConnectOutcome.genericErr)
      = (List.range msgs.length).map (fun i => min 60 (5 * 2 ^ (k + i))) := by
  induction msgs with
  | nil => intro k; simp [runWaits]
  | cons m ms ih =>
      intro k
      have hm : isBlockedMsg m = false := h m (List.mem_cons_self m ms)
      have hms : ∀ x ∈ ms, isBlockedMsg x = false :=
        fun x hx => h x (List.mem_cons_of_mem m hx)
      simp only [List.map_cons, runWaits, stepRun, nextBackoff_generic _ _ hm]
      have hstep : min maxBackoff (min 60 (5 * 2 ^ k) * 2) = min 60 (5 * 2 ^ (k + 1)) := by
        have := min_cap_double (5 * 2 ^ k)
        simp only [maxBackoff]
        rw [this, pow_succ]
        ring_nf
      rw [hstep, ih hms (k + 1)]
      simp only [List.length_cons, List.range_succ_eq_map, List.map_cons, List.map_map]
      congr 1
      apply List.map_congr_left
      intro i _
      simp only [Function.comp_apply]
      congr 3
      omega

lemma runWaits_capped (msgs : List String) (h : ∀ m ∈ msgs, isBlockedMsg m = false) :
    runWaits maxBackoff (msgs.map ConnectOutcome.genericErr)
      = List.replicate msgs.length maxBackoff := by
  induction msgs with
  | nil => simp [runWaits]
  | cons m ms ih =>
      have hm : isBlockedMsg m = false := h m (List.mem_cons_self m ms)
      have hms : ∀ x ∈ ms, isBlockedMsg x = false :=
        fun x hx => h x (List.mem_cons_of_mem m hx)
      simp only [List.map_cons, runWaits, stepRun, nextBackoff_generic _ _ hm]
      have hcap : min maxBackoff (maxBackoff * 2) = maxBackoff := by
        simp [maxBackoff]
      rw [hcap, ih hms]
      simp [List.replicate_succ]

/-- C2: starting from the fresh/reset base tier, `n` consecutive generic
connection failures sleep exactly `min 60 (5 * 2 ^ i)` seconds at the
`i`-th failure — the sequence 5, 10, 20, 40, 60, 60, … — and no wait ever
exceeds the 60-second cap. -/
theorem generic_backoff_doubles_capped (msgs : List String)
    (h : ∀ m ∈ msgs, isBlockedMsg m = false) :
    runWaits baseBackoff (msgs.map ConnectOutcome.genericErr)
      = (List.range msgs.length).map (fun i => min 60 (5 * 2 ^ i))
    ∧ ∀ w ∈ runWaits baseBackoff (msgs.map ConnectOutcome.genericErr), w ≤ 60 := by
  have hbase : baseBackoff = min 60 (5 * 2 ^ 0) := by norm_num [baseBackoff]
  have h0 := runWaits_generic_pow msgs h 0
  simp only [Nat.zero_add] at h0
  rw [hbase]
  refine ⟨h0, ?_⟩
  intro w hw
  rw [h0] at hw
  rcases List.mem_map.mp hw with ⟨i, _, rfl⟩
  exact min_le_left _ _

/-- Witness for C2 at six concrete consecutive generic failures. -/
theorem generic_backoff_doubles_capped_witness :
    runWaits baseBackoff
        (List.map ConnectOutcome.genericErr
          ["timed out", "refused", "reset", "closed", "eof", "dns"])
      = [5, 10, 20, 40, 60, 60] := by
  have h := generic_backoff_doubles_capped
    ["timed out", "refused", "reset", "closed", "eof", "dns"] (by decide)
  rw [h.1]
  decide

/-- C3: whenever a connection attempt fails with a blocked/rate-limited
condition (the `WebcastBlocked200Error` kind, or a message whose lowercase
form contains "device_blocked", "rate_limit" or "too many connections"),
the very next sleep of the reconnect loop is exactly the fixed 300 seconds,
whatever the backoff tier `b` at the time. -/
theorem blocked_wait_is_fixed_300 (b : Nat) (o : ConnectOutcome)
    (h : isBlockedOutcome o = true) :
    (stepRun b o).1 = 300 := by
  simp only [stepRun, nextBackoff_blocked b o h, rateLimitBackoff]

/-- Witness for C3: a rate-limit message hit at tier 40 still waits 300s. -/
theorem blocked_wait_is_fixed_300_witness :
    (stepRun 40 (ConnectOutcome.genericErr "Rate_Limit exceeded")).1 = 300 :=
  blocked_wait_is_fixed_300 40 (ConnectOutcome.genericErr "Rate_Limit exceeded") (by decide)

/-- C4 counterexample: after the 300-second blocked wait, the very next
generic failure waits 60 seconds (the cap), not the 5-second base: the loop
doubles 300 into `min 60 600 = 60` and only a successful connection resets
the tier. -/
theorem blocked_then_generic_wait_counterexample :
    (stepRun (stepRun baseBackoff ConnectOutcome.blocked200).2
        (ConnectOutcome.genericErr "connection reset by peer")).1 = 60
    ∧ (stepRun (stepRun baseBackoff ConnectOutcome.blocked200).2
        (ConnectOutcome.genericErr "connection reset by peer")).1 ≠ 5 := by
  decide

/-- C4 amended: after a blocked/rate-limited failure has forced the fixed
300-second wait, every following consecutive generic-failure wait is the
60-second cap (doubling continues from 300 and is clipped to 60); the tier
returns to the 5-second base only through a successful connection. -/
theorem blocked_then_generic_waits_capped (b : Nat) (o : ConnectOutcome)
    (msgs : List String) (hb : isBlockedOutcome o = true)
    (hg : ∀ m ∈ msgs, isBlockedMsg m = false) :
    (stepRun b o).1 = 300
    ∧ runWaits (stepRun b o).2 (msgs.map ConnectOutcome.genericErr)
        = List.replicate msgs.length 60
    ∧ nextBackoff b ConnectOutcome.success = baseBackoff := by
  have h1 : nextBackoff b o = rateLimitBackoff := nextBackoff_blocked b o hb
  have h2 : (stepRun b o).2 = maxBackoff := by
    simp [stepRun, h1, rateLimitBackoff, maxBackoff]
  refine ⟨by simp [stepRun, h1, rateLimitBackoff], ?_, rfl⟩
  rw [h2, runWaits_capped msgs hg]
  rfl

/-- Witness for the amended C4: blocked error, then two generic failures. -/
theorem blocked_then_generic_waits_capped_witness :
    (stepRun 20 ConnectOutcome.blocked200).1 = 300
    ∧ runWaits (stepRun 20 ConnectOutcome.blocked200).2
        (List.map ConnectOutcome.genericErr ["reset", "refused"])
        = List.replicate 2 60
    ∧ nextBackoff 20 ConnectOutcome.success = baseBackoff :=
  blocked_then_generic_waits_capped 20 ConnectOutcome.blocked200
    ["reset", "refused"] (by decide) (by decide)

lemma mem_purgeSeen {kv : String × Int} {seen : Seen} {t : Int}
    (h : kv ∈ purgeSeen seen t) : kv ∈ seen :=
  (List.mem_filter.mp h).1

lemma hasKey_eq_false_of_fresh {seen : Seen} {k : String}
    (hfresh : ∀ ts, (k, ts) ∉ seen) : hasKey seen k = false := by
  simp only [hasKey, List.any_eq_false]
  intro kv hkv
  cases kv with
  | mk a b =>
      simp only [beq_iff_eq]
      rintro rfl
      exact hfresh b hkv

/-- C1: for two inbound events with the same derived idempotency key, the
duplicate check admits the first (registering its key) so its handler runs,
and — when the second arrives less than 30 seconds later — reports the
second as a duplicate so its handler performs no action; when the
registered timestamp is older than 30 seconds at lookup, the entry is
purged and the event is treated as first-seen again. -/
theorem dedupe_window_30s {α : Type} (p1 p2 : EventPayload) (et1 et2 : String)
    (k : String) (t1 t2 : Int) (seen0 : Seen) (acts1 acts2 : List α)
    (hk1 : makeEventKey p1 et1 = some k) (hk2 : makeEventKey p2 et2 = some k)
    (hfresh : ∀ ts, (k, ts) ∉ seen0) :
    (isDuplicate (makeEventKey p1 et1) t1 seen0).1 = false
    ∧ (k, t1) ∈ (isDuplicate (makeEventKey p1 et1) t1 seen0).2
    ∧ (handleEvent (makeEventKey p1 et1) t1 seen0 acts1).1 = acts1
    ∧ (t2 - t1 < 30 →
        (isDuplicate (makeEventKey p2 et2) t2
            (isDuplicate (makeEventKey p1 et1) t1 seen0).2).1 = true
        ∧ (handleEvent (makeEventKey p2 et2) t2
            (isDuplicate (makeEventKey p1 et1) t1 seen0).2 acts2).1 = [])
    ∧ (t1 < t2 - 30 →
        (isDuplicate (makeEventKey p2 et2) t2
            (isDuplicate (makeEventKey p1 et1) t1 seen0).2).1 = false
        ∧ (k, t2) ∈ (isDuplicate (makeEventKey p2 et2) t2
            (isDuplicate (makeEventKey p1 et1) t1 seen0).2).2) := by
  rw [hk1, hk2]
  have hfresh1 : ∀ ts, (k, ts) ∉ purgeSeen seen0 t1 :=
    fun ts hmem => hfresh ts (mem_purgeSeen hmem)
  have hnk0 : hasKey (purgeSeen seen0 t1) k = false :=
    hasKey_eq_false_of_fresh hfresh1
  have hfst : isDuplicate (some k) t1 seen0 = (false, (k, t1) :: purgeSeen seen0 t1) := by
    simp [isDuplicate, hnk0]
  refine ⟨by rw [hfst], by rw [hfst]; exact List.mem_cons_self _ _,
    by simp [handleEvent, hfst], ?_, ?_⟩
  · intro hwin
    have hkeep : purgeSeen ((k, t1) :: purgeSeen seen0 t1) t2
        = (k, t1) :: purgeSeen (purgeSeen seen0 t1) t2 := by
      simp only [purgeSeen, List.filter_cons]
      rw [if_pos]
      simp only [decide_eq_true_eq]
      omega
    have hdup : isDuplicate (some k) t2 ((k, t1) :: purgeSeen seen0 t1) = (true,
        (k, t1) :: purgeSeen (purgeSeen seen0 t1) t2) := by
      simp [isDuplicate, hkeep, hasKey]
    rw [hfst]
    exact ⟨by rw [hdup], by simp [handleEvent, hdup]⟩
  · intro hold
    have hdropHead : purgeSeen ((k, t1) :: purgeSeen seen0 t1) t2
        = purgeSeen (purgeSeen seen0 t1) t2 := by
      simp only [purgeSeen, List.filter_cons]
      rw [if_neg]
      simp only [decide_eq_true_eq]
      omega
    have hfresh2 : ∀ ts, (k, ts) ∉ purgeSeen (purgeSeen seen0 t1) t2 :=
      fun ts hmem => hfresh1 ts (mem_purgeSeen hmem)
    have hnk2 : hasKey (purgeSeen (purgeSeen seen0 t1) t2) k = false :=
      hasKey_eq_false_of_fresh hfresh2
    have hsnd : isDuplicate (some k) t2 ((k, t1) :: purgeSeen seen0 t1)
        = (false, (k, t2) :: purgeSeen (purgeSeen seen0 t1) t2) := by
      simp [isDuplicate, hdropHead, hnk2]
    rw [hfst]
    exact ⟨by rw [hsnd], by rw [hsnd]; exact List.mem_cons_self _ _⟩

/-- Witness for C1: an event with id `evt-1` seen at t=100 is admitted; the
same key seen again at t=110 is rejected and its handler posts nothing. -/
theorem dedupe_window_30s_witness :
    (isDuplicate (makeEventKey sampleEventPayload "gift") 100 []).1 = false
    ∧ (handleEvent (makeEventKey sampleEventPayload "gift") 110
        (isDuplicate (makeEventKey sampleEventPayload "gift") 100 []).2
        (["score post"] : List String)).1 = [] := by
  have h := dedupe_window_30s (α := String) sampleEventPayload sampleEventPayload
    "gift" "gift" "gift:evt-1" 100 110 [] ["score post"] ["score post"]
    (by decide) (by decide) (by intro ts; simp)
  exact ⟨h.1, (h.2.2.2.1 (by norm_num)).2⟩

/-- C5: each side's tally delta is `max 0 (new - previous)`; a zero delta
produces no outbound call for that side, every posted delta is strictly
positive, and previous `(10, 4)` with new `(10, 9)` posts nothing for
`slot_one` and `+5` for `slot_two`. -/
theorem tally_deltas_clamped_and_positive (last : Scores) (n1 n2 : Int) :
    (updateScores last n1 n2).1 = ⟨n1, n2⟩
    ∧ (max 0 (n1 - last.slot_one) = 0 →
        ∀ a, ApiCall.addScore "slot_one" a ∉ (updateScores last n1 n2).2)
    ∧ (max 0 (n1 - last.slot_one) ≠ 0 →
        ApiCall.addScore "slot_one" (max 0 (n1 - last.slot_one)) ∈ (updateScores last n1 n2).2)
    ∧ (max 0 (n2 - last.slot_two) = 0 →
        ∀ a, ApiCall.addScore "slot_two" a ∉ (updateScores last n1 n2).2)
    ∧ (max 0 (n2 - last.slot_two) ≠ 0 →
        ApiCall.addScore "slot_two" (max 0 (n2 - last.slot_two)) ∈ (updateScores last n1 n2).2)
    ∧ (∀ slot a, ApiCall.addScore slot a ∈ (updateScores last n1 n2).2 → 0 < a)
    ∧ updateScores ⟨10, 4⟩ 10 9 = (⟨10, 9⟩, [ApiCall.addScore "slot_two" 5]) := by
  have hne : ("slot_one" : String) ≠ "slot_two" := by decide
  refine ⟨rfl, ?_, ?_, ?_, ?_, ?_, by decide⟩
  · intro h a
    by_cases h2 : max 0 (n2 - last.slot_two) = 0 <;>
      simp [updateScores, h, h2, hne]
  · intro h
    by_cases h2 : max 0 (n2 - last.slot_two) = 0 <;>
      simp [updateScores, h, h2]
  · intro h a
    by_cases h1 : max 0 (n1 - last.slot_one) = 0 <;>
      simp [updateScores, h, h1, hne.symm]
  · intro h
    by_cases h1 : max 0 (n1 - last.slot_one) = 0 <;>
      simp [updateScores, h, h1]
  · intro slot a hmem
    simp only [updateScores, List.mem_append] at hmem
    rcases hmem with hmem | hmem
    · by_cases h : max 0 (n1 - last.slot_one) ≠ 0
      · rw [if_pos h] at hmem
        simp only [List.mem_singleton, ApiCall.addScore.injEq] at hmem
        omega
      · rw [if_neg h] at hmem
        simp at hmem
    · by_cases h : max 0 (n2 - last.slot_two) ≠ 0
      · rw [if_pos h] at hmem
        simp only [List.mem_singleton, ApiCall.addScore.injEq] at hmem
        omega
      · rw [if_neg h] at hmem
        simp at hmem

/-- Witness for C5 at the spec's concrete tally example. -/
theorem tally_deltas_clamped_and_positive_witness :
    (ApiCall.addScore "slot_two" 5 ∈ (updateScores ⟨10, 4⟩ 10 9).2)
    ∧ updateScores ⟨10, 4⟩ 10 9 = (⟨10, 9⟩, [ApiCall.addScore "slot_two" 5]) := by
  have h := tally_deltas_clamped_and_positive ⟨10, 4⟩ 10 9
  exact ⟨h.2.2.2.2.1 (by decide), h.2.2.2.2.2.2⟩

/-- C6: slot resolution normalizes the raw recipient by trim, lowercase and
leading-`@` strip, then matches in this exact order: exact against
slot_one, exact against slot_two, substring (either direction) against
slot_one, substring against slot_two, and defaults to `slot_one` when
nothing matches (including an empty normalized name). -/
theorem slot_resolution_order (slots : Slots) (recipient : String) :
    normRecipient recipient = lstripAt (pyLower (pyStrip recipient))
    ∧ (normRecipient recipient = "" → slotForRecipient slots recipient = "slot_one")
    ∧ (normRecipient slots.slot_one ≠ "" →
        normRecipient recipient = normRecipient slots.slot_one →
        slotForRecipient slots recipient = "slot_one")
    ∧ (normRecipient recipient ≠ normRecipient slots.slot_one →
        normRecipient slots.slot_two ≠ "" →
        normRecipient recipient = normRecipient slots.slot_two →
        slotForRecipient slots recipient = "slot_two")
    ∧ (normRecipient recipient ≠ "" →
        (normRecipient slots.slot_one = "" ∨
          normRecipient recipient ≠ normRecipient slots.slot_one) →
        (normRecipient slots.slot_two = "" ∨
          normRecipient recipient ≠ normRecipient slots.slot_two) →
        normRecipient slots.slot_one ≠ "" →
        (pyIn (normRecipient recipient) (normRecipient slots.slot_one)
          || pyIn (normRecipient slots.slot_one) (normRecipient recipient)) = true →
        slotForRecipient slots recipient = "slot_one")
    ∧ (normRecipient recipient ≠ "" →
        (normRecipient slots.slot_one = "" ∨
          normRecipient recipient ≠ normRecipient slots.slot_one) →
        (normRecipient slots.slot_two = "" ∨
          normRecipient recipient ≠ normRecipient slots.slot_two) →
        (normRecipient slots.slot_one = "" ∨
          (pyIn (normRecipient recipient) (normRecipient slots.slot_one)
            || pyIn (normRecipient slots.slot_one) (normRecipient recipient)) = false) →
        normRecipient slots.slot_two ≠ "" →
        (pyIn (normRecipient recipient) (normRecipient slots.slot_two)
          || pyIn (normRecipient slots.slot_two) (normRecipient recipient)) = true →
        slotForRecipient slots recipient = "slot_two")
    ∧ ((normRecipient slots.slot_one = "" ∨
          normRecipient recipient ≠ normRecipient slots.slot_one) →
        (normRecipient slots.slot_two = "" ∨
          normRecipient recipient ≠ normRecipient slots.slot_two) →
        (normRecipient slots.slot_one = "" ∨
          (pyIn (normRecipient recipient) (normRecipient slots.slot_one)
            || pyIn (normRecipient slots.slot_one) (normRecipient recipient)) = false) →
        (normRecipient slots.slot_two = "" ∨
          (pyIn (normRecipient recipient) (normRecipient slots.slot_two)
            || pyIn (normRecipient slots.slot_two) (normRecipient recipient)) = false) →
        slotForRecipient slots recipient = "slot_one") := by
  refine ⟨rfl, ?_, ?_, ?_, ?_, ?_, ?_⟩
  · intro h
    simp only [slotForRecipient]
    rw [if_pos h]
  · intro hn1 heq
    have hr : normRecipient recipient ≠ "" := by rw [heq]; exact hn1
    simp only [slotForRecipient]
    rw [if_neg hr, if_pos ⟨hn1, heq⟩]
  · intro hne1 hn2 heq
    have hr : normRecipient recipient ≠ "" := by rw [heq]; exact hn2
    simp only [slotForRecipient]
    rw [if_neg hr, if_neg (fun hc => hne1 hc.2), if_pos ⟨hn2, heq⟩]
  · intro hr hne1 hne2 hn1 hsub
    simp only [slotForRecipient]
    rw [if_neg hr,
      if_neg (fun hc => (hne1.resolve_left (fun h0 => hc.1 h0)) hc.2),
      if_neg (fun hc => (hne2.resolve_left (fun h0 => hc.1 h0)) hc.2),
      if_pos ⟨hn1, hsub⟩]
  · intro hr hne1 hne2 hs1 hn2 hsub
    simp only [slotForRecipient]
    rw [if_neg hr,
      if_neg (fun hc => (hne1.resolve_left (fun h0 => hc.1 h0)) hc.2),
      if_neg (fun hc => (hne2.resolve_left (fun h0 => hc.1 h0)) hc.2),
      if_neg (fun hc => by
        have := hs1.resolve_left (fun h0 => hc.1 h0)
        rw [this] at hc
        exact absurd hc.2 (by simp)),
      if_pos ⟨hn2, hsub⟩]
  · intro hne1 hne2 hs1 hs2
    by_cases hr : normRecipient recipient = ""
    · simp only [slotForRecipient]
      rw [if_pos hr]
    · simp only [slotForRecipient]
      rw [if_neg hr,
        if_neg (fun hc => (hne1.resolve_left (fun h0 => hc.1 h0)) hc.2),
        if_neg (fun hc => (hne2.resolve_left (fun h0 => hc.1 h0)) hc.2),
        if_neg (fun hc => by
          have := hs1.resolve_left (fun h0 => hc.1 h0)
          rw [this] at hc
          exact absurd hc.2 (by simp)),
        if_neg (fun hc => by
          have := hs2.resolve_left (fun h0 => hc.1 h0)
          rw [this] at hc
          exact absurd hc.2 (by simp))]

/-- Witness for C6: a name matching neither binding falls back to slot_one,
and an `@`-prefixed exact match resolves to slot_two. -/
theorem slot_resolution_order_witness :
    slotForRecipient ⟨"Alice", "Bob"⟩ "charlie" = "slot_one"
    ∧ slotForRecipient ⟨"Alice", "Bob"⟩ " @BOB " = "slot_two" := by
  constructor
  · exact (slot_resolution_order ⟨"Alice", "Bob"⟩ "charlie").2.2.2.2.2.2
      (by decide) (by decide) (by decide) (by decide)
  · exact (slot_resolution_order ⟨"Alice", "Bob"⟩ " @BOB ").2.2.2.1
      (by decide) (by decide) (by decide)

lemma slotForRecipient_exact_two (slots : Slots) (r : String)
    (hne : normRecipient r ≠ normRecipient slots.slot_one)
    (h2 : normRecipient slots.slot_two ≠ "")
    (heq : normRecipient r = normRecipient slots.slot_two) :
    slotForRecipient slots r = "slot_two" := by
  have hr : normRecipient r ≠ "" := by rw [heq]; exact h2
  simp only [slotForRecipient]
  rw [if_neg hr, if_neg (fun hc => hne hc.2), if_pos ⟨h2, heq⟩]

lemma lookupLedger_bump (m : List (String × Int)) (k : String) (a : Int) :
    lookupLedger (bumpLedger m k a) k = lookupLedger m k + a := by
  have h : List.find? (fun kv => kv.1 == k) (bumpLedger m k a)
      = some (k, lookupLedger m k + a) := by
    unfold bumpLedger
    exact List.find?_cons_of_pos _ (by simp)
  simp [lookupLedger, h]

lemma maybeTrigger_none_none (st : ListenerState) (now : Int)
    (sync : Except String StateJson) :
    maybeTrigger st now none none sync = Except.ok (st, [], []) := by
  have h1 : looksLikeBattleStart none none = false := by decide
  have h2 : looksLikeBattleEnd none none = false := by decide
  simp [maybeTrigger, maybeTriggerEnd, h1, h2]

/-- C7: the monetary gift value is `repeat_count * unit_value` when both
probed fields are truthy, the unit value alone when only it is truthy, and
otherwise zero — in which case the gift changes no state and posts no score
while the name heuristic still runs; and a gift with repeat 3, unit 5 whose
recipient exactly matches slot_two's bound name adds 15 to slot_two's local
baseline, posts `+15` to slot_two, and adds 15 to that recipient's ledger
entry. -/
theorem gift_valuation_and_slot_two_scoring (st : ListenerState) (now : Int)
    (repeat_count diamond_count : Option Int) (giftName : Option String)
    (recipient : String) (syncTop syncTrig : Except String StateJson)
    (hex : normRecipient recipient
        ≠ normRecipient (syncSlots st.slots syncTop).slot_one)
    (hn2 : normRecipient (syncSlots st.slots syncTop).slot_two ≠ "")
    (heq : normRecipient recipient
        = normRecipient (syncSlots st.slots syncTop).slot_two)
    (hrid : normalizeUserId recipient ≠ "") :
    (intTruthy repeat_count = true → intTruthy diamond_count = true →
      giftValue repeat_count diamond_count
        = repeat_count.getD 0 * diamond_count.getD 0)
    ∧ (intTruthy repeat_count = false → intTruthy diamond_count = true →
        giftValue repeat_count diamond_count = diamond_count.getD 0)
    ∧ (intTruthy diamond_count = false → giftValue repeat_count diamond_count = 0)
    ∧ (giftValue repeat_count diamond_count = 0 →
        onGift st now repeat_count diamond_count giftName recipient syncTop syncTrig
          = Except.map (fun t => (t.1, ApiCall.getState :: t.2.1, t.2.2))
              (maybeTrigger { st with slots := syncSlots st.slots syncTop }
                now none giftName syncTrig))
    ∧ (onGift st now (some 3) (some 5) none recipient syncTop syncTrig
        = Except.ok
            ({ st with
                slots := syncSlots st.slots syncTop,
                lastScores := { st.lastScores with
                  slot_two := st.lastScores.slot_two + 15 },
                scoreById := bumpLedger st.scoreById (normalizeUserId recipient) 15 },
              [ApiCall.getState, ApiCall.addScore "slot_two" 15], [])
      ∧ lookupLedger (bumpLedger st.scoreById (normalizeUserId recipient) 15)
          (normalizeUserId recipient)
        = lookupLedger st.scoreById (normalizeUserId recipient) + 15) := by
  refine ⟨?_, ?_, ?_, ?_, ?_⟩
  · intro h1 h2
    simp [giftValue, h1, h2]
  · intro h1 h2
    simp [giftValue, h1, h2]
  · intro h2
    simp only [giftValue, h2]
    simp
  · intro hz
    cases hmt : maybeTrigger { st with slots := syncSlots st.slots syncTop }
        now none giftName syncTrig with
    | error e => simp [onGift, hmt, Except.map]
    | ok t => simp [onGift, hmt, hz, Except.map]
  · have hv : giftValue (some 3) (some 5) = 15 := by decide
    have hslot : slotForRecipient (syncSlots st.slots syncTop) recipient = "slot_two" :=
      slotForRecipient_exact_two _ recipient hex hn2 heq
    have hne15 : ¬ (15 : Int) ≤ 0 := by norm_num
    have hne0 : (15 : Int) ≠ 0 := by norm_num
    have hns : ("slot_two" : String) ≠ "slot_one" := by decide
    refine ⟨?_, lookupLedger_bump st.scoreById (normalizeUserId recipient) 15⟩
    simp [onGift, hv, maybeTrigger_none_none, scoreGift, hslot, hne15, hne0, hns, hrid]

/-- Witness for C7 at concrete state and recipient: the heuristic path
short-circuits (both predicates are false for a nameless gift), so the
naive-datetime comparison is never reached and the gift is scored. -/
theorem gift_valuation_and_slot_two_scoring_witness :
    onGift initialListenerState 50 (some 3) (some 5) none " @Performer Two"
        (Except.error "down") (Except.error "down")
      = Except.ok
          ({ initialListenerState with
              slots := syncSlots initialListenerState.slots (Except.error "down"),
              lastScores := { initialListenerState.lastScores with
                slot_two := initialListenerState.lastScores.slot_two + 15 },
              scoreById := bumpLedger initialListenerState.scoreById
                (normalizeUserId " @Performer Two") 15 },
            [ApiCall.getState, ApiCall.addScore "slot_two" 15], []) :=
  (gift_valuation_and_slot_two_scoring initialListenerState 50
    (some 3) (some 5) none " @Performer Two" (Except.error "down") (Except.error "down")
    (by decide) (by decide) (by decide) (by decide)).2.2.2.2.1

/-- C8 counterexample: the comment "nice battle" contains neither
`!battle` nor `start battle`, so the start heuristic rejects it and the
handler completes without triggering anything (the short-circuited `and`
never reaches the datetime subtraction) — contradicting the claim that the
first occurrence triggers a heuristic battle start. -/
theorem nice_battle_triggers_nothing :
    looksLikeBattleStart (some "nice battle") none = false
    ∧ onComment initialListenerState 0 "nice battle"
        (Except.error "down") (Except.error "down")
      = Except.ok (initialListenerState, [], []) := by
  constructor
  · decide
  · rfl

/-- C8 amended: "nice battle" matches no heuristic, so neither occurrence
triggers anything; from the pristine listener state even a matching
comment triggers nothing, because `_maybe_trigger` subtracts the naive
`datetime.min` from an aware timestamp and the `TypeError` aborts the
handler; once a start has been recorded (an aware `lastStart` more than a
cooldown old), a comment matching the start heuristic, such as
"start battle", delivered twice 10 seconds apart with distinct dedupe keys
has only the first delivery trigger a heuristic start, the second being
suppressed by the 30-second cooldown. -/
theorem heuristic_start_cooldown_suppression (st : ListenerState) (t t0 tn : Int)
    (post : Except String Unit) (s1 s2 : Except String StateJson)
    (hstart : st.lastStart = some t0) (h : t - t0 > cooldown) :
    looksLikeBattleStart (some "nice battle") none = false
    ∧ onComment initialListenerState tn "start battle" post s1
        = Except.error naiveDatetimeError
    ∧ onComment st t "start battle" post s1
        = Except.ok ((triggerStart st t "heuristic" s1).1,
            (triggerStart st t "heuristic" s1).2, ["start"])
    ∧ onComment (triggerStart st t "heuristic" s1).1 (t + 10) "start battle" post s2
        = Except.ok ((triggerStart st t "heuristic" s1).1, [], []) := by
  have hc1 : pyStartsWith "start battle" "!battle" = false := by decide
  have hc2 : pyStartsWith "start battle" "!end" = false := by decide
  have hc3 : pyStartsWith "start battle" "!slots" = false := by decide
  have hs : looksLikeBattleStart (some "start battle") none = true := by decide
  have hend : looksLikeBattleEnd (some "start battle") none = false := by decide
  refine ⟨by decide, ?_, ?_, ?_⟩
  · simp [onComment, hc1, hc2, hc3, maybeTrigger, hs, initialListenerState]
  · simp [onComment, hc1, hc2, hc3, maybeTrigger, hs, hstart, h]
  · simp [onComment, hc1, hc2, hc3, maybeTrigger, hs, triggerStart,
      maybeTriggerEnd, hend]
    decide

/-- Witness for the amended C8: a listener that recorded a battle start at
time 0 sees "start battle" at t=100 (trigger) and t=110 (suppressed); the
pristine listener instead aborts with the datetime `TypeError`. -/
theorem heuristic_start_cooldown_suppression_witness :
    onComment startedListenerState 100 "start battle"
        (Except.error "e") (Except.error "e")
      = Except.ok ((triggerStart startedListenerState 100 "heuristic" (Except.error "e")).1,
          (triggerStart startedListenerState 100 "heuristic" (Except.error "e")).2, ["start"])
    ∧ onComment (triggerStart startedListenerState 100 "heuristic" (Except.error "e")).1
        (100 + 10) "start battle" (Except.error "e") (Except.error "e")
      = Except.ok ((triggerStart startedListenerState 100 "heuristic" (Except.error "e")).1,
          [], [])
    ∧ onComment initialListenerState 0 "start battle" (Except.error "e") (Except.error "e")
      = Except.error naiveDatetimeError := by
  have h := heuristic_start_cooldown_suppression startedListenerState 100 0 0
    (Except.error "e") (Except.error "e") (Except.error "e") rfl (by decide)
  exact ⟨h.2.2.1, h.2.2.2, h.2.1⟩

/-- C9: no outbound Battle Control API call lets a transport or parse
failure escape into the event-handling path — `_safe_post` maps success to
`true` and any caught failure to `false`; a failed `_sync_slots` leaves
the slot bindings unchanged; a fully-failing `import_slots` leaves the
bindings unchanged while still reporting its calls; and `trigger_start` /
`trigger_end` complete their local bookkeeping (timestamps, baseline,
ledger) and emit their posts even when the state pull fails. -/
theorem outbound_failures_never_raise (e e2 : String) (slots : Slots)
    (a b : Option String) (st : ListenerState) (now : Int) (reason : String) :
    safePost (Except.error e) = false
    ∧ (∀ r : Except String Unit, safePost r = true ↔ r = Except.ok ())
    ∧ syncSlots slots (Except.error e) = slots
    ∧ (importSlots slots a b (Except.error e) (Except.error e2)).1 = slots
    ∧ (importSlots slots a b (Except.error e) (Except.error e2)).2
        = [ApiCall.slotsImport a b, ApiCall.getState]
    ∧ (triggerStart st now reason (Except.error e)).1
        = { st with lastStart := some now, lastScores := ⟨0, 0⟩, scoreById := [] }
    ∧ (triggerStart st now reason (Except.error e)).2
        = [ApiCall.battleStart, ApiCall.getState]
    ∧ (triggerEnd st now reason (Except.error e)).1
        = { st with lastEnd := some now, scoreById := [] }
    ∧ (triggerEnd st now reason (Except.error e)).2
        = [ApiCall.battleEnd, ApiCall.getState] := by
  refine ⟨rfl, ?_, rfl, ?_, rfl, ?_, rfl, ?_, rfl⟩
  · intro r
    cases r with
    | ok u => cases u; simp [safePost]
    | error msg => simp [safePost]
  · simp [importSlots, safePost, syncSlots]
  · simp [triggerStart, syncSlots]
  · simp [triggerEnd, syncSlots]

/-- Witness for C9 at a concrete failing transport. -/
theorem outbound_failures_never_raise_witness :
    safePost (Except.error "connection refused") = false
    ∧ syncSlots ⟨"Alice", "Bob"⟩ (Except.error "connection refused") = ⟨"Alice", "Bob"⟩ := by
  have h := outbound_failures_never_raise "connection refused" "x" ⟨"Alice", "Bob"⟩
    none none initialListenerState 0 "manual"
  exact ⟨h.1, h.2.2.1⟩

/-- C10: every battle-start trigger, whatever its reason and whatever state
preceded it, stamps an aware start time, zeroes the per-slot baseline and
empties the per-recipient ledger, so the first tally processed after the
start posts each side's full reported cumulative value (omitting zero
sides) — whether it arrives within the cooldown (deltas only) or after it
(implicit re-start, then deltas); before any start has occurred the armies
handler instead aborts on the naive `datetime.min` comparison and posts
nothing. -/
theorem start_resets_baseline_first_tally_full (st : ListenerState) (now tn : Int)
    (reason : String) (sync sync2 : Except String StateJson) (n1 n2 : Int) :
    (triggerStart st now reason sync).1.lastScores = ⟨0, 0⟩
    ∧ (triggerStart st now reason sync).1.scoreById = []
    ∧ (triggerStart st now reason sync).1.lastStart = some now
    ∧ (0 ≤ n1 → 0 ≤ n2 →
        updateScores (triggerStart st now reason sync).1.lastScores n1 n2
          = (⟨n1, n2⟩,
            (if n1 ≠ 0 then [ApiCall.addScore "slot_one" n1] else [])
              ++ (if n2 ≠ 0 then [ApiCall.addScore "slot_two" n2] else [])))
    ∧ (¬ tn - now > cooldown → 0 ≤ n1 → 0 ≤ n2 →
        onArmies (triggerStart st now reason sync).1 tn n1 n2 sync2
          = Except.ok
              ({ (triggerStart st now reason sync).1 with lastScores := ⟨n1, n2⟩ },
                (if n1 ≠ 0 then [ApiCall.addScore "slot_one" n1] else [])
                  ++ (if n2 ≠ 0 then [ApiCall.addScore "slot_two" n2] else [])))
    ∧ (tn - now > cooldown → 0 ≤ n1 → 0 ≤ n2 →
        onArmies (triggerStart st now reason sync).1 tn n1 n2 sync2
          = Except.ok
              ({ (triggerStart (triggerStart st now reason sync).1 tn
                    "armies_event" sync2).1 with lastScores := ⟨n1, n2⟩ },
                [ApiCall.battleStart, ApiCall.getState]
                  ++ ((if n1 ≠ 0 then [ApiCall.addScore "slot_one" n1] else [])
                    ++ (if n2 ≠ 0 then [ApiCall.addScore "slot_two" n2] else []))))
    ∧ onArmies initialListenerState tn n1 n2 sync2 = Except.error naiveDatetimeError := by
  have hfull : 0 ≤ n1 → 0 ≤ n2 →
      updateScores (⟨0, 0⟩ : Scores) n1 n2
        = (⟨n1, n2⟩,
          (if n1 ≠ 0 then [ApiCall.addScore "slot_one" n1] else [])
            ++ (if n2 ≠ 0 then [ApiCall.addScore "slot_two" n2] else [])) := by
    intro h1 h2
    have e1 : max 0 (n1 - (⟨0, 0⟩ : Scores).slot_one) = n1 := by
      simp only [show (⟨0, 0⟩ : Scores).slot_one = 0 from rfl]
      omega
    have e2 : max 0 (n2 - (⟨0, 0⟩ : Scores).slot_two) = n2 := by
      simp only [show (⟨0, 0⟩ : Scores).slot_two = 0 from rfl]
      omega
    simp only [updateScores, e1, e2]
  refine ⟨rfl, rfl, rfl, ?_, ?_, ?_, rfl⟩
  · intro h1 h2
    exact hfull h1 h2
  · intro hc h1 h2
    have hlt : (triggerStart st now reason sync).1.lastStart = some now := rfl
    simp only [onArmies, hlt]
    rw [if_neg hc,
      show (triggerStart st now reason sync).1.lastScores = (⟨0, 0⟩ : Scores) from rfl,
      hfull h1 h2]
  · intro hc h1 h2
    have hlt : (triggerStart st now reason sync).1.lastStart = some now := rfl
    simp only [onArmies, hlt]
    rw [if_pos hc,
      show (triggerStart (triggerStart st now reason sync).1 tn
        "armies_event" sync2).1.lastScores = (⟨0, 0⟩ : Scores) from rfl,
      hfull h1 h2]
    rfl

/-- Witness for C10: a start at t=100 from the initial state followed by a
(7, 0) tally at t=105 posts the full 7 for slot_one and nothing for
slot_two, while the same tally before any start aborts with the datetime
`TypeError`. -/
theorem start_resets_baseline_first_tally_full_witness :
    (triggerStart initialListenerState 100 "armies_event" (Except.error "e")).1.lastScores
      = ⟨0, 0⟩
    ∧ onArmies (triggerStart initialListenerState 100 "armies_event" (Except.error "e")).1
        105 7 0 (Except.error "e")
      = Except.ok
          ({ (triggerStart initialListenerState 100 "armies_event" (Except.error "e")).1
              with lastScores := ⟨7, 0⟩ },
            [ApiCall.addScore "slot_one" 7])
    ∧ onArmies initialListenerState 105 7 0 (Except.error "e")
      = Except.error naiveDatetimeError := by
  have h := start_resets_baseline_first_tally_full initialListenerState 100 105
    "armies_event" (Except.error "e") (Except.error "e") 7 0
  refine ⟨h.1, ?_, h.2.2.2.2.2.2⟩
  rw [h.2.2.2.2.1 (by decide) (by norm_num) (by norm_num)]
  rfl

end TikTokListener
